import Mathlib

/-!
# Verification of the wscan axis-motion and scan-orchestration code

Shallow embedding of the axis iterator (`AxisIterator_t`, `ax_move`, `ax_iter`,
`ax_iter_start`, `ax_iter_repeat`, `ax_init`, `ax_get_pos`, `ax_get_index`)
and of the scan loop of `main` from `src/bin/wscan.c`.

Modelling conventions:
* C `int` values are modelled as unbounded `Int` (the defined-behaviour
  semantics; none of the claims concerns wrap-around).
* The C `double` fields (`cal`, `effrequency`) are modelled as `ℚ`; the
  `(int)` cast in the wait computation is `Int.floor` (the operands are
  positive, so truncation toward zero coincides with `⌊·⌋`).
* Hardware writes (`LJM_eWriteName` for the direction bit, `lc_update_ef`
  for the pulse count) are fallible external calls.  Their outcomes are an
  oracle `hw : ℕ → Bool` consulted at a running write counter `k`: the
  `i`-th hardware write of a run succeeds iff `hw i`.  A zero-step move
  performs no write and consults nothing.
* Every externally visible action is recorded, in program order, as an
  event: the attempted direction-bit write, the attempted pulse command,
  the `ax->state += steps` assignment, and the `usleep` call.  This makes
  ordering properties (state update before settle wait) provable.
* Strings (`dregister`, `units`) play no role in any claim and are omitted
  from the state; `cal` is kept because `ax_get_pos` uses it.
-/

/-- One externally visible action of `ax_move` (in program order). -/
inductive Ev where
  /-- `LJM_eWriteName(handle, ax->dregister, dir)` — attempted write of the
  direction bit with value `v`. -/
  | writeDir (v : Int)
  /-- `ax->dconf->efch[ax->efch].counts = n; lc_update_ef(...)` — attempted
  pulse-count command of `n` pulses. -/
  | pulse (n : Int)
  /-- `ax->state += steps` — the position-counter assignment, recorded so
  that its ordering relative to the settle wait is visible. -/
  | updState (s : Int)
  /-- `usleep(us)` — blocking wait of `us` microseconds. -/
  | sleep (us : Int)
  deriving DecidableEq, Repr

/-- The `AxisIterator_t` struct of wscan.h (string fields omitted, see the
file header). -/
structure AxisIterator where
  /-- `state` : the current axis position in step counts. -/
  state : Int
  /-- `cal` : calibration (length per count), a C `double`. -/
  cal : ℚ
  /-- `steps` : the steps per each motion. -/
  steps : Int
  /-- `niter` : number of iterations in a scan. -/
  niter : Int
  /-- `dpos` : direction bit value when moving in the positive direction. -/
  dpos : Int
  /-- `_dir` : direction of motion (C truthiness: nonzero = forward). -/
  dirLive : Int
  /-- `_index` : number of iterations performed. -/
  idx : Int
  deriving DecidableEq, Repr

/-- Result of one `ax_move` / `ax_iter` call: the C return value, the updated
struct, the events performed, and the advanced hardware-write counter. -/
structure MoveOut where
  ret : Int
  ax : AxisIterator
  evs : List Ev
  k : ℕ
  deriving DecidableEq, Repr

/-- `ax_move` from wscan.h: recode `steps` into a direction bit and a
positive pulse count, write the direction bit, command the pulses, commit
`state += steps`, then case out the wait.  `freq` is
`ax->dconf->effrequency`; `hw`/`k` are the hardware-outcome oracle and the
write counter. -/
def ax_move (freq : ℚ) (hw : ℕ → Bool) (k : ℕ) (ax : AxisIterator)
    (steps wait_us : Int) : MoveOut :=
  -- if(steps == 0) return 0;
  if steps = 0 then ⟨0, ax, [], k⟩
  else
    -- recode into a positive count and a direction bit
    let psteps : Int := if steps < 0 then -steps else steps
    let dir : Int := if steps < 0 then (if ax.dpos = 0 then 1 else 0) else ax.dpos
    -- LJM_eWriteName(..., ax->dregister, dir)
    if hw k = false then ⟨-1, ax, [Ev.writeDir dir], k + 1⟩
    -- counts = psteps; lc_update_ef(...)
    else if hw (k + 1) = false then ⟨-1, ax, [Ev.writeDir dir, Ev.pulse psteps], k + 2⟩
    else
      -- ax->state += steps
      let ax2 := { ax with state := ax.state + steps }
      -- usleep((int)(psteps * 1e6 / effrequency) + AX_SETTLE_US) / usleep(wait_us) / nothing
      let ws : List Ev :=
        if wait_us < 0 then [Ev.sleep (⌊(psteps : ℚ) * 1000000 / freq⌋ + 100000)]
        else if 0 < wait_us then [Ev.sleep wait_us]
        else []
      ⟨0, ax2, [Ev.writeDir dir, Ev.pulse psteps, Ev.updState ax2.state] ++ ws, k + 2⟩

/-- `ax_iter_start` from wscan.h: `_dir = 1; _index = -1` (returns 0 always;
the model keeps only the state). -/
def ax_iter_start (ax : AxisIterator) : AxisIterator :=
  { ax with dirLive := 1, idx := -1 }

/-- `ax_iter_repeat` from wscan.h: `_dir = !_dir; _index = -1`. -/
def ax_iter_repeat (ax : AxisIterator) : AxisIterator :=
  { ax with dirLive := if ax.dirLive = 0 then 1 else 0, idx := -1 }

/-- `ax_iter` from wscan.h: return 1 when `_index >= niter`; otherwise
increment `_index`, compute the absolute target for the new index
(forward: `_index * steps`; reverse: `(niter - _index) * steps`), subtract
`state`, and delegate to `ax_move`. -/
def ax_iter (freq : ℚ) (hw : ℕ → Bool) (k : ℕ) (ax : AxisIterator)
    (wait_us : Int) : MoveOut :=
  if ax.niter ≤ ax.idx then ⟨1, ax, [], k⟩
  else
    let ax1 := { ax with idx := ax.idx + 1 }
    let distance : Int :=
      (if ax1.dirLive ≠ 0 then ax1.idx * ax1.steps
       else (ax1.niter - ax1.idx) * ax1.steps) - ax1.state
    ax_move freq hw k ax1 distance wait_us

/-- `ax_init` from wscan.h, restricted to the fields the claims use: a fresh
iterator has `state = 0`, `_index = -1`, `_dir = 1`, and `dpos` forced to
`{0,1}` by `ax->dpos = (ax->dpos != 0)`.  The channel checks and the
`lc_get_meta_*` reads (whose failures abort initialization) are outside the
model; the range checks `niter > 0` and `cal > 0` appear as hypotheses of
the theorems that need them. -/
def ax_init_model (steps niter dposRaw : Int) (cal : ℚ) : AxisIterator :=
  { state := 0
    cal := cal
    steps := steps
    niter := niter
    dpos := if dposRaw ≠ 0 then 1 else 0
    dirLive := 1
    idx := -1 }

/-- `ax_get_pos` from wscan.h: `state * cal`. -/
def ax_get_pos (ax : AxisIterator) : ℚ :=
  (ax.state : ℚ) * ax.cal

/-- `ax_get_index` from wscan.h. -/
def ax_get_index (ax : AxisIterator) : Int :=
  ax.idx

/-- The all-success hardware oracle: every write is acknowledged. -/
def hwOK : ℕ → Bool := fun _ => true

/-- Outcome of `n` consecutive `ax_iter` calls: the list of return values,
the final struct, and the final write counter. -/
structure RunOut where
  rets : List Int
  ax : AxisIterator
  k : ℕ
  deriving DecidableEq, Repr

/-- Perform `n` consecutive `ax_iter` calls with a fixed wait argument,
threading the struct and the write counter, and collecting the return
values in call order. -/
def ax_iter_run (freq : ℚ) (hw : ℕ → Bool) (wait_us : Int) :
    ℕ → ℕ → AxisIterator → RunOut
  | 0, k, ax => ⟨[], ax, k⟩
  | n + 1, k, ax =>
    let r := ax_iter freq hw k ax wait_us
    let rest := ax_iter_run freq hw wait_us n r.k r.ax
    ⟨r.ret :: rest.rets, rest.ax, rest.k⟩

/-- The absolute step-count target that `ax_iter` computes for index `j`:
`j * steps` in the forward direction, `(niter - j) * steps` in reverse. -/
def ax_target (ax : AxisIterator) (j : Int) : Int :=
  if ax.dirLive ≠ 0 then j * ax.steps else (ax.niter - j) * ax.steps

/-- Event filter: `true` exactly on `usleep` events. -/
def sleepOnly : Ev → Bool
  | Ev.sleep _ => true
  | _ => false

/-- Axis tag for orchestrator events. -/
inductive AxId where
  | xax
  | zax
  deriving DecidableEq, Repr

/-- Acquisition outcome of one grid point (one burst of
`lc_stream_start` / `lc_stream_service` / `lc_stream_stop`). -/
inductive AcqOutcome where
  | ok
  | startFail
  | serviceFail
  deriving DecidableEq, Repr

/-- One observable action of the scan loop of `main`. -/
inductive OEv where
  /-- A motion event of `ax_move` on the tagged axis. -/
  | mot (a : AxId) (e : Ev)
  /-- One acquisition burst with its outcome. -/
  | acq (o : AcqOutcome)
  deriving DecidableEq, Repr

/-- Event filter on orchestrator events: a pulse command on the z axis. -/
def zpulse : OEv → Bool
  | OEv.mot AxId.zax (Ev.pulse _) => true
  | _ => false

/-- How the scan phase of `main` ends. -/
inductive OExit where
  /-- The z-loop condition returned nonzero (grid exhausted, or a motion
  error on the z step): `main` falls through to the return-home moves and
  `return 0`. -/
  | done
  /-- `mkdir` of a slice directory failed: `return -1` at once. -/
  | mkdirFail
  /-- `lc_stream_start` failed: `return -1` at once. -/
  | acqStartFail
  /-- `lc_stream_service` failed: `lc_stream_stop` then `return -1`. -/
  | acqServiceFail
  /-- Model artifact: the supplied fuel ran out (cannot occur when the
  fuel exceeds the loop bounds `niter + 2`). -/
  | fuelOut
  deriving DecidableEq, Repr

/-- Orchestrator state: the two axis iterators, the hardware-write counter,
the grid-point counter (indexing the acquisition oracle), the slice counter
(indexing the mkdir oracle), and the event trace in program order. -/
structure OState where
  x : AxisIterator
  z : AxisIterator
  k : ℕ
  pt : ℕ
  sl : ℕ
  tr : List OEv
  deriving DecidableEq, Repr

/-- The x-loop of `main`:
`while(!(err = ax_iter(&xaxis, -1))) { ... }`.  The loop condition
commands motion first; a nonzero return (1 exhausted or -1 motion error)
leaves the loop normally (`none`); inside the body an acquisition failure
makes `main` return (`some code`).  The meta-coordinate writes and the
per-point file output are warnings only in the source, with no effect on
motion or control flow, and are not modelled.  `fuel` bounds the
recursion. -/
def scan_x (freq : ℚ) (hw : ℕ → Bool) (acq : ℕ → AcqOutcome) :
    ℕ → OState → OState × Option OExit
  | 0, st => (st, some OExit.fuelOut)
  | fuel + 1, st =>
    let r := ax_iter freq hw st.k st.x (-1)
    let st1 : OState :=
      { st with x := r.ax, k := r.k, tr := st.tr ++ r.evs.map (OEv.mot AxId.xax) }
    if r.ret ≠ 0 then (st1, none)
    else
      match acq st1.pt with
      | AcqOutcome.ok =>
        scan_x freq hw acq fuel
          { st1 with pt := st1.pt + 1, tr := st1.tr ++ [OEv.acq AcqOutcome.ok] }
      | AcqOutcome.startFail =>
        ({ st1 with pt := st1.pt + 1, tr := st1.tr ++ [OEv.acq AcqOutcome.startFail] },
          some OExit.acqStartFail)
      | AcqOutcome.serviceFail =>
        ({ st1 with pt := st1.pt + 1, tr := st1.tr ++ [OEv.acq AcqOutcome.serviceFail] },
          some OExit.acqServiceFail)

/-- The z-loop of `main`: the loop condition `ax_iter(&zaxis, -1)` (nonzero
return — exhausted or motion error — leaves the loop, `none`), then the
slice-directory creation (failure returns from `main`), the x-loop
(an abort propagates out), and `ax_iter_repeat(&xaxis)` after the x-loop
ends. -/
def scan_z (freq : ℚ) (hw : ℕ → Bool) (acq : ℕ → AcqOutcome) (mkdirOk : ℕ → Bool) :
    ℕ → ℕ → OState → OState × Option OExit
  | 0, _, st => (st, some OExit.fuelOut)
  | fuel + 1, xfuel, st =>
    let r := ax_iter freq hw st.k st.z (-1)
    let st1 : OState :=
      { st with z := r.ax, k := r.k, tr := st.tr ++ r.evs.map (OEv.mot AxId.zax) }
    if r.ret ≠ 0 then (st1, none)
    else if mkdirOk st1.sl = false then
      ({ st1 with sl := st1.sl + 1 }, some OExit.mkdirFail)
    else
      match scan_x freq hw acq xfuel { st1 with sl := st1.sl + 1 } with
      | (st2, some e) => (st2, some e)
      | (st2, none) =>
        scan_z freq hw acq mkdirOk fuel xfuel { st2 with x := ax_iter_repeat st2.x }

/-- Initial state of the scan phase of `main`:
`ax_iter_start(&zaxis); ax_iter_start(&xaxis);` with fresh counters and an
empty trace. -/
def scan_init (x0 z0 : AxisIterator) : OState :=
  { x := ax_iter_start x0, z := ax_iter_start z0, k := 0, pt := 0, sl := 0, tr := [] }

/-- Result of the whole scan phase. -/
structure ScanOut where
  st : OState
  exit : OExit
  deriving DecidableEq, Repr

/-- The scan phase of `main` (wscan.c): run the nested loops from
`scan_init`.  When the z-loop exits normally (`none`), perform the
return-home moves `ax_move(&xaxis, -xaxis.state, -1)` then
`ax_move(&zaxis, -zaxis.state, -1)` (their return values are ignored in the
source) and finish as `OExit.done`.  When the loops abort (`some e`),
`main` returns at once: nothing is appended after the loop result. -/
def wscan_run (freq : ℚ) (hw : ℕ → Bool) (acq : ℕ → AcqOutcome) (mkdirOk : ℕ → Bool)
    (zfuel xfuel : ℕ) (x0 z0 : AxisIterator) : ScanOut :=
  match scan_z freq hw acq mkdirOk zfuel xfuel (scan_init x0 z0) with
  | (st, some e) => ⟨st, e⟩
  | (st, none) =>
    let rx := ax_move freq hw st.k st.x (-st.x.state) (-1)
    let st1 : OState :=
      { st with x := rx.ax, k := rx.k, tr := st.tr ++ rx.evs.map (OEv.mot AxId.xax) }
    let rz := ax_move freq hw st1.k st1.z (-st1.z.state) (-1)
    let st2 : OState :=
      { st1 with z := rz.ax, k := rz.k, tr := st1.tr ++ rz.evs.map (OEv.mot AxId.zax) }
    ⟨st2, OExit.done⟩

/-- x axis as configured in the repository wscan.conf: `xstep = 50`,
`xn = 200`, `xdir = 1`, `xcal = 0.0025 = 1/400` (fields as produced by
`ax_init`). -/
def ax_x_scen : AxisIterator := ⟨0, 1/400, 50, 200, 1, 1, -1⟩

/-- z axis as configured in the repository wscan.conf: `zstep = 200`,
`zn = 4`, `zdir = 1`, `zcal = 1/400`. -/
def ax_z_scen : AxisIterator := ⟨0, 1/400, 200, 4, 1, 1, -1⟩

/-- Hardware oracle of the C8 scenario: write number 6 (0-based) fails.
That is the direction-bit write of the 5th x step: the first z step and the
first x step command distance 0 (no writes at all), and x steps 2-4 make
two writes each (indices 0-5), so the 5th x step's direction write is
index 6. -/
def hw_c8 : ℕ → Bool := fun k => decide (k ≠ 6)

/-- Acquisition oracle of the C8 run: the four points acquired in slice 0
succeed; the first point of slice 1 (point index 4) fails at stream start,
ending the run shortly after the divergence it exhibits. -/
def acq_c8 : ℕ → AcqOutcome :=
  fun pt => if pt < 4 then AcqOutcome.ok else AcqOutcome.startFail

/-- The C8 run: wscan.conf axes, direction-write failure on the 5th of the
201 x steps of slice 0, all other hardware writes succeeding. -/
def run_c8 : ScanOut :=
  wscan_run 500 hw_c8 acq_c8 (fun _ => true) 10 210 ax_x_scen ax_z_scen

/-- The slice-0 x-loop of the C8 run in isolation.  In the full run the
first z step precedes it but commands distance 0 — no hardware write, no
event — so the x-loop starts from the same counters. -/
def xloop_c8 : OState × Option OExit :=
  scan_x 500 hw_c8 acq_c8 210 (scan_init ax_x_scen ax_z_scen)

/-- Acquisition oracle of the C9 counterexample: the first grid point
succeeds, the second fails at stream start (by then x has moved to 50
counts). -/
def acq_c9 : ℕ → AcqOutcome :=
  fun pt => if pt = 0 then AcqOutcome.ok else AcqOutcome.startFail

/-- The C9 run: all hardware writes succeed, acquisition fails at the
second grid point. -/
def run_c9 : ScanOut :=
  wscan_run 500 hwOK acq_c9 (fun _ => true) 10 210 ax_x_scen ax_z_scen

/-- A small all-success scan (one interval on each axis) used to witness
the C9 amended theorem on its normal-completion branch. -/
def run_c9_small : ScanOut :=
  wscan_run 500 hwOK (fun _ => AcqOutcome.ok) (fun _ => true) 5 5
    ⟨0, 1, 2, 1, 1, 1, -1⟩ ⟨0, 1, 3, 1, 1, 1, -1⟩

/-- An exhausted iterator (`_index >= niter`) returns 1 and touches
nothing: no state change, no events, no hardware write. -/
theorem ax_iter_exhausted (freq : ℚ) (hw : ℕ → Bool) (k : ℕ) (ax : AxisIterator)
    (wait_us : Int) (h : ax.niter ≤ ax.idx) :
    ax_iter freq hw k ax wait_us = ⟨1, ax, [], k⟩ := by
  simp [ax_iter, h]

/-- With the all-success oracle, `ax_move` returns 0 and commits exactly
`state += steps` (for `steps = 0` this is the no-op branch). -/
theorem ax_move_hwOK (freq : ℚ) (k : ℕ) (ax : AxisIterator) (steps wait_us : Int) :
    (ax_move freq hwOK k ax steps wait_us).ret = 0 ∧
    (ax_move freq hwOK k ax steps wait_us).ax = { ax with state := ax.state + steps } := by
  cases ax
  unfold ax_move hwOK
  split_ifs <;> simp_all

/-- A non-exhausted `ax_iter` call under the all-success oracle returns 0,
advances `_index`, and lands `state` exactly on the absolute target of the
new index, whatever the starting `state` was. -/
theorem ax_iter_hwOK_step (freq : ℚ) (k : ℕ) (ax : AxisIterator) (wait_us : Int)
    (h : ax.idx < ax.niter) :
    (ax_iter freq hwOK k ax wait_us).ret = 0 ∧
    (ax_iter freq hwOK k ax wait_us).ax =
      { ax with idx := ax.idx + 1, state := ax_target ax (ax.idx + 1) } := by
  have hle : ¬ ax.niter ≤ ax.idx := by omega
  obtain ⟨h1, h2⟩ := ax_move_hwOK freq k { ax with idx := ax.idx + 1 }
    ((if ax.dirLive ≠ 0 then (ax.idx + 1) * ax.steps
      else (ax.niter - (ax.idx + 1)) * ax.steps) - ax.state) wait_us
  constructor
  · simpa [ax_iter, hle] using h1
  · rw [ax_iter]
    simp only [if_neg hle]
    rw [h2]
    cases ax
    simp [ax_target]

/-- Invariant of a successful run: starting from any `state`, `n` `ax_iter`
calls that all succeed (all-success oracle) and stay within the plan
(`_index + n ≤ niter`) return 0 each time, advance `_index` by `n`, and
(for `n ≥ 1`) land `state` on the absolute target of the final index. -/
theorem ax_iter_run_hwOK (freq : ℚ) (wait_us : Int) (n : ℕ) :
    ∀ (k : ℕ) (ax : AxisIterator), ax.idx + n ≤ ax.niter →
      (ax_iter_run freq hwOK wait_us n k ax).rets = List.replicate n 0 ∧
      (ax_iter_run freq hwOK wait_us n k ax).ax =
        { ax with idx := ax.idx + n,
                  state := if n = 0 then ax.state else ax_target ax (ax.idx + n) } := by
  induction n with
  | zero =>
    intro k ax _
    cases ax
    simp [ax_iter_run]
  | succ n ih =>
    intro k ax h
    obtain ⟨h1, h2⟩ := ax_iter_hwOK_step freq k ax wait_us (by push_cast at h ⊢; omega)
    set ax1 : AxisIterator := { ax with idx := ax.idx + 1, state := ax_target ax (ax.idx + 1) }
      with hax1
    have harg : ax1.idx + (n : Int) ≤ ax1.niter := by
      rw [hax1]
      push_cast at h ⊢
      omega
    obtain ⟨ih1, ih2⟩ := ih (ax_iter freq hwOK k ax wait_us).k ax1 harg
    rw [ax_iter_run]
    simp only [h1, h2]
    refine ⟨by rw [ih1]; rfl, ?_⟩
    rw [ih2, hax1]
    cases ax with
    | mk st cal stp ni dp dl ix =>
      simp only [ax_target, AxisIterator.mk.injEq]
      norm_num
      constructor
      · split_ifs <;> (try subst_vars) <;> push_cast <;> ring
      · omega

/-- **C1.** For every axis iterator with `niter > 0`: `ax_iter` with
`_index >= niter` returns 1 (Exhausted), commands no motion and changes no
state; otherwise it increments `_index`, computes the absolute target
(`_index * steps` forward, `(niter - _index) * steps` reverse, with the
incremented index), and delegates the move `target - state` to `ax_move`
with the caller's wait argument. -/
theorem C1_step_contract (freq : ℚ) (hw : ℕ → Bool) (k : ℕ) (ax : AxisIterator)
    (wait_us : Int) (hn : 0 < ax.niter) :
    (ax.niter ≤ ax.idx → ax_iter freq hw k ax wait_us = ⟨1, ax, [], k⟩) ∧
    (ax.idx < ax.niter →
      ax_iter freq hw k ax wait_us =
        ax_move freq hw k { ax with idx := ax.idx + 1 }
          ((if ax.dirLive ≠ 0 then (ax.idx + 1) * ax.steps
            else (ax.niter - (ax.idx + 1)) * ax.steps) - ax.state) wait_us) := by
  refine ⟨fun h => ax_iter_exhausted freq hw k ax wait_us h, fun h => ?_⟩
  rw [ax_iter, if_neg (by omega : ¬ ax.niter ≤ ax.idx)]

/-- Witness for C1 at a concrete iterator (`niter = 200`, fresh cursor):
the hypotheses hold and the call is exactly the delegated move. -/
theorem C1_witness :
    ax_iter 500 hwOK 0 ⟨0, 1, 50, 200, 1, 1, -1⟩ (-1) =
      ax_move 500 hwOK 0 ⟨0, 1, 50, 200, 1, 1, 0⟩ 0 (-1) := by
  have h := (C1_step_contract 500 hwOK 0 ⟨0, 1, 50, 200, 1, 1, -1⟩ (-1)
    (by norm_num)).2 (by norm_num)
  rw [h]
  norm_num

/-- **C2.** For any configuration (`stepIncrement` arbitrary, `niter > 0`,
raw direction flag arbitrary), a freshly initialized iterator after
`ax_iter_start` and `niter + 1` all-successful `ax_iter` calls has returned
0 every time, holds `state = niter * steps`, and the next call returns 1
(Exhausted). -/
theorem C2_full_sweep (steps niter dposRaw : Int) (cal freq : ℚ) (wait_us : Int)
    (k : ℕ) (hn : 0 < niter) :
    (ax_iter_run freq hwOK wait_us (niter.toNat + 1) k
        (ax_iter_start (ax_init_model steps niter dposRaw cal))).rets =
      List.replicate (niter.toNat + 1) 0 ∧
    (ax_iter_run freq hwOK wait_us (niter.toNat + 1) k
        (ax_iter_start (ax_init_model steps niter dposRaw cal))).ax.state =
      niter * steps ∧
    (ax_iter freq hwOK
        (ax_iter_run freq hwOK wait_us (niter.toNat + 1) k
          (ax_iter_start (ax_init_model steps niter dposRaw cal))).k
        (ax_iter_run freq hwOK wait_us (niter.toNat + 1) k
          (ax_iter_start (ax_init_model steps niter dposRaw cal))).ax
        wait_us).ret = 1 := by
  have hcast : ((niter.toNat + 1 : ℕ) : Int) = niter + 1 := by
    push_cast
    rw [Int.toNat_of_nonneg hn.le]
  have hax0 : ax_iter_start (ax_init_model steps niter dposRaw cal) =
      ⟨0, cal, steps, niter, if dposRaw ≠ 0 then 1 else 0, 1, -1⟩ := rfl
  obtain ⟨h1, h2⟩ := ax_iter_run_hwOK freq wait_us (niter.toNat + 1) k
    (ax_iter_start (ax_init_model steps niter dposRaw cal))
    (by rw [hax0, hcast]; simp)
  refine ⟨h1, ?_, ?_⟩
  · rw [h2, hax0]
    simp [ax_target, hcast]
  · rw [h2, hax0]
    rw [ax_iter_exhausted _ _ _ _ _ (by simp)]

/-- Witness for C2 at the configured scenario of wscan.conf
(`xstep = 50`, `xn = 200`, `xdir = 1`, `xcal = 0.0025`): after the full
sweep the absolute position is `200 * 50 = 10000` counts. -/
theorem C2_witness :
    (ax_iter_run 500 hwOK (-1) 201 0
      (ax_iter_start (ax_init_model 50 200 1 (1/400)))).ax.state = 10000 := by
  have h2 : (200 : Int).toNat + 1 = 201 := rfl
  have h := (C2_full_sweep 50 200 1 (1/400) 500 (-1) 0 (by norm_num)).2.1
  rw [h2] at h
  rw [h]
  norm_num

/-- **C3 (amended).** A forward sweep from `ax_iter_start` followed, after
exhaustion, by `ax_iter_repeat` and a mirrored reverse sweep (all hardware
succeeding, `niter + 1` calls each) always drives `state` back to 0 — which
equals the pre-start `state` exactly when the iterator started at 0, as a
freshly initialized iterator does (`ax_init` sets `state = 0`). -/
theorem C3_amended_round_trip (freq : ℚ) (wait_us : Int) (k k2 : ℕ)
    (ax : AxisIterator) (hn : 0 < ax.niter) (h0 : ax.state = 0) :
    (ax_iter_run freq hwOK wait_us (ax.niter.toNat + 1) k (ax_iter_start ax)).rets =
      List.replicate (ax.niter.toNat + 1) 0 ∧
    (ax_iter freq hwOK
        (ax_iter_run freq hwOK wait_us (ax.niter.toNat + 1) k (ax_iter_start ax)).k
        (ax_iter_run freq hwOK wait_us (ax.niter.toNat + 1) k (ax_iter_start ax)).ax
        wait_us).ret = 1 ∧
    (ax_iter_run freq hwOK wait_us (ax.niter.toNat + 1) k2
        (ax_iter_repeat
          (ax_iter_run freq hwOK wait_us (ax.niter.toNat + 1) k (ax_iter_start ax)).ax)).rets =
      List.replicate (ax.niter.toNat + 1) 0 ∧
    (ax_iter_run freq hwOK wait_us (ax.niter.toNat + 1) k2
        (ax_iter_repeat
          (ax_iter_run freq hwOK wait_us (ax.niter.toNat + 1) k (ax_iter_start ax)).ax)).ax.state =
      ax.state := by
  obtain ⟨f1, f2⟩ := ax_iter_run_hwOK freq wait_us (ax.niter.toNat + 1) k (ax_iter_start ax)
    (by simp [ax_iter_start]; omega)
  refine ⟨f1, ?_, ?_, ?_⟩
  · rw [f2]
    rw [ax_iter_exhausted _ _ _ _ _ (by simp [ax_iter_start])]
  · obtain ⟨r1, _⟩ := ax_iter_run_hwOK freq wait_us (ax.niter.toNat + 1) k2
      (ax_iter_repeat
        (ax_iter_run freq hwOK wait_us (ax.niter.toNat + 1) k (ax_iter_start ax)).ax)
      (by rw [f2]; simp [ax_iter_start, ax_iter_repeat]; all_goals omega)
    exact r1
  · obtain ⟨_, r2⟩ := ax_iter_run_hwOK freq wait_us (ax.niter.toNat + 1) k2
      (ax_iter_repeat
        (ax_iter_run freq hwOK wait_us (ax.niter.toNat + 1) k (ax_iter_start ax)).ax)
      (by rw [f2]; simp [ax_iter_start, ax_iter_repeat]; all_goals omega)
    rw [r2, f2, h0]
    simp [ax_iter_start, ax_iter_repeat, ax_target]
    omega

/-- The recoding `psteps = (steps < 0) ? -steps : steps` is the absolute
value. -/
theorem steps_recode_abs (steps : Int) :
    (if steps < 0 then -steps else steps) = |steps| := by
  split_ifs with h
  · exact (abs_of_neg h).symm
  · exact (abs_of_nonneg (not_lt.1 h)).symm

/-- **C6.** A zero-step `ax_move` is a pure no-op for every wait argument:
it returns 0 immediately, issues no direction write, no pulse command and
no `usleep` (empty event list), leaves the struct unchanged, and consults
no hardware outcome. -/
theorem C6_zero_step_noop (freq : ℚ) (hw : ℕ → Bool) (k : ℕ) (ax : AxisIterator)
    (wait_us : Int) :
    ax_move freq hw k ax 0 wait_us = ⟨0, ax, [], k⟩ := by
  simp [ax_move]

/-- **C4.** For every nonzero `steps` (and a direction bit already
normalized to 0/1, as `ax_init` guarantees): the direction value written
first is `dpos` for positive `steps` and its logical complement
`1 - dpos` for negative `steps`; every pulse command issued carries
exactly `|steps|` pulses; and if the direction write is acknowledged the
pulse command `|steps|` is indeed issued. -/
theorem C4_direction_and_magnitude (freq : ℚ) (hw : ℕ → Bool) (k : ℕ)
    (ax : AxisIterator) (steps wait_us : Int) (hs : steps ≠ 0)
    (hd : ax.dpos = 0 ∨ ax.dpos = 1) :
    (ax_move freq hw k ax steps wait_us).evs.head? =
      some (Ev.writeDir (if 0 < steps then ax.dpos else 1 - ax.dpos)) ∧
    (∀ n : Int, Ev.pulse n ∈ (ax_move freq hw k ax steps wait_us).evs → n = |steps|) ∧
    (hw k = true → Ev.pulse |steps| ∈ (ax_move freq hw k ax steps wait_us).evs) := by
  have hdir : (if steps < 0 then (if ax.dpos = 0 then 1 else 0) else ax.dpos) =
      (if 0 < steps then ax.dpos else 1 - ax.dpos) := by
    rcases hd with hd | hd <;> rw [hd] <;> split_ifs <;> norm_num <;> omega
  unfold ax_move
  rw [if_neg hs]
  simp only [steps_recode_abs, hdir]
  split_ifs <;> simp_all

/-- Witness for C4: with `dpos = 1` and `steps = -3`, the direction
written is the complement 0 and the pulse command carries 3 pulses. -/
theorem C4_witness :
    (ax_move 500 hwOK 0 ⟨0, 1, 50, 200, 1, 1, 0⟩ (-3) 0).evs.head? =
      some (Ev.writeDir 0) ∧
    Ev.pulse 3 ∈ (ax_move 500 hwOK 0 ⟨0, 1, 50, 200, 1, 1, 0⟩ (-3) 0).evs := by
  have h := C4_direction_and_magnitude 500 hwOK 0 ⟨0, 1, 50, 200, 1, 1, 0⟩ (-3) 0
    (by norm_num) (Or.inr rfl)
  refine ⟨?_, ?_⟩
  · have h1 := h.1
    norm_num at h1
    exact h1
  · have h3 := h.2.2 rfl
    norm_num at h3
    exact h3


/-- The exact result of a fully acknowledged nonzero `ax_move`: return 0,
`state += steps`, and the event sequence direction write, pulse command,
state assignment, then the wait events selected by `wait_us`. -/
theorem ax_move_success_form (freq : ℚ) (hw : ℕ → Bool) (k : ℕ) (ax : AxisIterator)
    (steps wait_us : Int) (hs : steps ≠ 0) (h1 : hw k = true) (h2 : hw (k + 1) = true) :
    ax_move freq hw k ax steps wait_us =
      ⟨0, { ax with state := ax.state + steps },
       Ev.writeDir (if steps < 0 then (if ax.dpos = 0 then 1 else 0) else ax.dpos) ::
         Ev.pulse |steps| :: Ev.updState (ax.state + steps) ::
         (if wait_us < 0 then [Ev.sleep (⌊(|steps| : ℚ) * 1000000 / freq⌋ + 100000)]
          else if 0 < wait_us then [Ev.sleep wait_us] else []),
       k + 2⟩ := by
  unfold ax_move
  rw [if_neg hs, h1, h2]
  simp [steps_recode_abs]

/-- A refused hardware write makes a nonzero `ax_move` return -1 with the
struct untouched and no `state`-assignment event performed. -/
theorem ax_move_fail_form (freq : ℚ) (hw : ℕ → Bool) (k : ℕ) (ax : AxisIterator)
    (steps wait_us : Int) (hs : steps ≠ 0) (hf : ¬ (hw k = true ∧ hw (k + 1) = true)) :
    (ax_move freq hw k ax steps wait_us).ret = -1 ∧
    (ax_move freq hw k ax steps wait_us).ax = ax ∧
    ∀ s : Int, Ev.updState s ∉ (ax_move freq hw k ax steps wait_us).evs := by
  unfold ax_move
  rw [if_neg hs]
  split_ifs with g1 g2 <;> simp_all

/-- **C5.** `ax_move` is atomic in `state` for nonzero `steps`: if either
hardware write is refused it returns -1 (MotionError), the struct — hence
`positionCounts` — is unchanged, and no state-assignment event occurs;
when both writes are acknowledged it returns 0, commits `state += steps`,
and the events are the direction write, the pulse command, the state
assignment, and then nothing but `usleep` events: the update happens at
command issuance, before any settle wait. -/
theorem C5_atomic_update (freq : ℚ) (hw : ℕ → Bool) (k : ℕ) (ax : AxisIterator)
    (steps wait_us : Int) (hs : steps ≠ 0) :
    (¬ (hw k = true ∧ hw (k + 1) = true) →
      (ax_move freq hw k ax steps wait_us).ret = -1 ∧
      (ax_move freq hw k ax steps wait_us).ax = ax ∧
      ∀ s : Int, Ev.updState s ∉ (ax_move freq hw k ax steps wait_us).evs) ∧
    ((hw k = true ∧ hw (k + 1) = true) →
      (ax_move freq hw k ax steps wait_us).ret = 0 ∧
      (ax_move freq hw k ax steps wait_us).ax = { ax with state := ax.state + steps } ∧
      ∃ ws : List Ev, (∀ e ∈ ws, ∃ us : Int, e = Ev.sleep us) ∧
        (ax_move freq hw k ax steps wait_us).evs =
          Ev.writeDir (if steps < 0 then (if ax.dpos = 0 then 1 else 0) else ax.dpos) ::
            Ev.pulse |steps| :: Ev.updState (ax.state + steps) :: ws) := by
  constructor
  · intro hfail
    exact ax_move_fail_form freq hw k ax steps wait_us hs hfail
  · rintro ⟨h1, h2⟩
    rw [ax_move_success_form freq hw k ax steps wait_us hs h1 h2]
    refine ⟨rfl, rfl, ?_⟩
    refine ⟨_, ?_, rfl⟩
    intro e he
    split_ifs at he <;> simp_all

/-- Witness for C5 on the failure branch: with every hardware write
refused, a 7-step move returns -1 and leaves the struct exactly as it
was. -/
theorem C5_witness :
    (ax_move 500 (fun _ => false) 0 ⟨0, 1, 50, 200, 1, 1, 0⟩ 7 (-1)).ret = -1 ∧
    (ax_move 500 (fun _ => false) 0 ⟨0, 1, 50, 200, 1, 1, 0⟩ 7 (-1)).ax =
      ⟨0, 1, 50, 200, 1, 1, 0⟩ := by
  have h := (C5_atomic_update 500 (fun _ => false) 0 ⟨0, 1, 50, 200, 1, 1, 0⟩ 7 (-1)
    (by norm_num)).1 (by simp)
  exact ⟨h.1, h.2.1⟩

/-- **C7.** Wait policy of a fully acknowledged nonzero `ax_move`: with
`wait_us < 0` it sleeps once for `(int)(|steps| * 1e6 / effrequency) +
100000` microseconds — equal to `|steps| * 1e6 / effrequency + 100000`
whenever the quotient is an integer, as in the spec's 100-steps-at-500-Hz
example; with `wait_us > 0` it sleeps exactly `wait_us`; with
`wait_us = 0` it does not sleep. -/
theorem C7_wait_policy (freq : ℚ) (hw : ℕ → Bool) (k : ℕ) (ax : AxisIterator)
    (steps wait_us : Int) (hs : steps ≠ 0) (h1 : hw k = true) (h2 : hw (k + 1) = true) :
    (wait_us < 0 →
      (ax_move freq hw k ax steps wait_us).evs.filter sleepOnly =
        [Ev.sleep (⌊(|steps| : ℚ) * 1000000 / freq⌋ + 100000)] ∧
      ∀ m : Int, (|steps| : ℚ) * 1000000 / freq = (m : ℚ) →
        (ax_move freq hw k ax steps wait_us).evs.filter sleepOnly =
          [Ev.sleep (m + 100000)]) ∧
    (0 < wait_us →
      (ax_move freq hw k ax steps wait_us).evs.filter sleepOnly = [Ev.sleep wait_us]) ∧
    (wait_us = 0 →
      (ax_move freq hw k ax steps wait_us).evs.filter sleepOnly = []) := by
  rw [ax_move_success_form freq hw k ax steps wait_us hs h1 h2]
  refine ⟨fun hneg => ⟨?_, fun m hm => ?_⟩, fun hpos => ?_, fun hzero => ?_⟩
  · simp [hneg, sleepOnly]
  · rw [hm]
    simp [hneg, sleepOnly, Int.floor_intCast]
  · rw [if_neg (by omega : ¬ wait_us < 0), if_pos hpos]
    simp [sleepOnly]
  · simp [hzero, sleepOnly]

/-- Witness for C7 at the spec's example: 100 steps at 500 Hz with
automatic wait sleeps exactly `100 * 1e6 / 500 + 100000 = 300000`
microseconds. -/
theorem C7_witness :
    (ax_move 500 hwOK 0 ⟨0, 1, 50, 200, 1, 1, 0⟩ 100 (-1)).evs.filter sleepOnly =
      [Ev.sleep 300000] := by
  have h := ((C7_wait_policy 500 hwOK 0 ⟨0, 1, 50, 200, 1, 1, 0⟩ 100 (-1)
    (by norm_num) rfl rfl).1 (by norm_num)).2 200000 (by norm_num)
  norm_num at h
  exact h

/-- **C10.** The wait argument does not interfere with anything but the
blocking time: two `ax_move` calls differing only in `wait_us` return the
same code, leave the same struct (same `positionCounts`), consume the same
hardware outcomes, and issue the same hardware commands — their event
lists agree once `usleep` events are removed. -/
theorem C10_wait_noninterference (freq : ℚ) (hw : ℕ → Bool) (k : ℕ)
    (ax : AxisIterator) (steps w1 w2 : Int) :
    (ax_move freq hw k ax steps w1).ret = (ax_move freq hw k ax steps w2).ret ∧
    (ax_move freq hw k ax steps w1).ax = (ax_move freq hw k ax steps w2).ax ∧
    (ax_move freq hw k ax steps w1).k = (ax_move freq hw k ax steps w2).k ∧
    (ax_move freq hw k ax steps w1).evs.filter (fun e => ! sleepOnly e) =
      (ax_move freq hw k ax steps w2).evs.filter (fun e => ! sleepOnly e) := by
  unfold ax_move
  split_ifs <;> simp [sleepOnly]

/-- Witness for C3's amended theorem: an iterator with `state = 0`,
`steps = 2`, `niter = 3`; the forward sweep plus mirrored reverse sweep
ends back at `state = 0`. -/
theorem C3_witness :
    (ax_iter_run 500 hwOK 0 4 0
      (ax_iter_repeat
        (ax_iter_run 500 hwOK 0 4 0 (ax_iter_start ⟨0, 1, 2, 3, 1, 1, -1⟩)).ax)).ax.state =
      0 := by
  have h := (C3_amended_round_trip 500 0 0 0 ⟨0, 1, 2, 3, 1, 1, -1⟩
    (by norm_num) rfl).2.2.2
  exact h

/-- Counterexample to C3 as stated: an iterator whose pre-`start`
`positionCounts` is 5 (not 0).  `ax_iter` drives `state` to the absolute
plan position, so the very first forward step moves to 0 and the full
forward-plus-mirrored-reverse round trip ends at 0, not back at 5: the
round trip does not restore an arbitrary pre-`start` value. -/
theorem C3_counterexample :
    ¬ ((ax_iter_run 500 hwOK 0 2 0
          (ax_iter_repeat
            (ax_iter_run 500 hwOK 0 2 0 (ax_iter_start ⟨5, 1, 1, 1, 1, 1, -1⟩)).ax)).ax.state =
        (⟨5, 1, 1, 1, 1, 1, -1⟩ : AxisIterator).state) := by
  decide

/-- The x-loop never exits with the `done` code: it either leaves the loop
normally (`none`) or aborts with an acquisition failure (or, as a model
artifact, runs out of fuel). -/
theorem scan_x_no_done (freq : ℚ) (hw : ℕ → Bool) (acq : ℕ → AcqOutcome) :
    ∀ (fuel : ℕ) (st : OState), (scan_x freq hw acq fuel st).2 ≠ some OExit.done := by
  intro fuel
  induction fuel with
  | zero =>
    intro st
    simp [scan_x]
  | succ n ih =>
    intro st
    rw [scan_x]
    split_ifs
    · simp
    · split <;> simp [ih]

/-- Pair form of `scan_x_no_done` for use under a `match`. -/
theorem scan_x_pair_no_done (freq : ℚ) (hw : ℕ → Bool) (acq : ℕ → AcqOutcome)
    (fuel : ℕ) (st st2 : OState) (e : OExit)
    (h : scan_x freq hw acq fuel st = (st2, some e)) : e ≠ OExit.done := by
  intro he
  subst he
  have hx := scan_x_no_done freq hw acq fuel st
  rw [h] at hx
  exact hx rfl

/-- The z-loop never exits with the `done` code either: `some` results are
only mkdir failures, propagated acquisition failures, or fuel exhaustion. -/
theorem scan_z_no_done (freq : ℚ) (hw : ℕ → Bool) (acq : ℕ → AcqOutcome)
    (mkdirOk : ℕ → Bool) :
    ∀ (zfuel xfuel : ℕ) (st : OState),
      (scan_z freq hw acq mkdirOk zfuel xfuel st).2 ≠ some OExit.done := by
  intro zfuel
  induction zfuel with
  | zero =>
    intro xfuel st
    simp [scan_z]
  | succ n ih =>
    intro xfuel st
    rw [scan_z]
    split_ifs
    · simp
    · simp
    · split
      · rename_i st2 e heq
        exact fun hc => scan_x_pair_no_done _ _ _ _ _ _ _ heq (Option.some.inj hc)
      · exact ih xfuel _

/-- **C9 (amended).** With all hardware writes succeeding: when the scan
phase finishes as `done` — the only path that falls out of the z-loop,
reached on grid exhaustion or on a motion error in the loop condition —
the return-home moves `move(-x.positionCounts)` then
`move(-z.positionCounts)` have run and both position counters end at 0;
on every other termination (slice-mkdir failure or acquisition failure)
`main` returns immediately and the result is exactly the aborted loop
state — no return-home move is commanded. -/
theorem C9_amended_home_only_on_loop_exit (freq : ℚ) (acq : ℕ → AcqOutcome)
    (mkdirOk : ℕ → Bool) (zfuel xfuel : ℕ) (x0 z0 : AxisIterator) :
    ((wscan_run freq hwOK acq mkdirOk zfuel xfuel x0 z0).exit = OExit.done →
      (wscan_run freq hwOK acq mkdirOk zfuel xfuel x0 z0).st.x.state = 0 ∧
      (wscan_run freq hwOK acq mkdirOk zfuel xfuel x0 z0).st.z.state = 0) ∧
    ((wscan_run freq hwOK acq mkdirOk zfuel xfuel x0 z0).exit ≠ OExit.done →
      scan_z freq hwOK acq mkdirOk zfuel xfuel (scan_init x0 z0) =
        ((wscan_run freq hwOK acq mkdirOk zfuel xfuel x0 z0).st,
          some (wscan_run freq hwOK acq mkdirOk zfuel xfuel x0 z0).exit)) := by
  rcases hz : scan_z freq hwOK acq mkdirOk zfuel xfuel (scan_init x0 z0) with ⟨st, oe⟩
  cases oe with
  | some e =>
    have hrun : wscan_run freq hwOK acq mkdirOk zfuel xfuel x0 z0 = ⟨st, e⟩ := by
      rw [wscan_run, hz]
    have hne : e ≠ OExit.done := by
      have hzz := scan_z_no_done freq hwOK acq mkdirOk zfuel xfuel (scan_init x0 z0)
      rw [hz] at hzz
      exact fun hc => hzz (by rw [hc])
    rw [hrun]
    exact ⟨fun hd => absurd hd hne, fun _ => rfl⟩
  | none =>
    have hrun : wscan_run freq hwOK acq mkdirOk zfuel xfuel x0 z0 =
        ⟨{ st with
            x := (ax_move freq hwOK st.k st.x (-st.x.state) (-1)).ax,
            z := (ax_move freq hwOK (ax_move freq hwOK st.k st.x (-st.x.state) (-1)).k
                    st.z (-st.z.state) (-1)).ax,
            k := (ax_move freq hwOK (ax_move freq hwOK st.k st.x (-st.x.state) (-1)).k
                    st.z (-st.z.state) (-1)).k,
            tr := (st.tr ++
              (ax_move freq hwOK st.k st.x (-st.x.state) (-1)).evs.map (OEv.mot AxId.xax)) ++
              (ax_move freq hwOK (ax_move freq hwOK st.k st.x (-st.x.state) (-1)).k
                  st.z (-st.z.state) (-1)).evs.map (OEv.mot AxId.zax) },
          OExit.done⟩ := by
      rw [wscan_run, hz]
    rw [hrun]
    constructor
    · intro _
      constructor
      · show (ax_move freq hwOK st.k st.x (-st.x.state) (-1)).ax.state = 0
        rw [(ax_move_hwOK freq st.k st.x (-st.x.state) (-1)).2]
        simp
      · show (ax_move freq hwOK (ax_move freq hwOK st.k st.x (-st.x.state) (-1)).k
            st.z (-st.z.state) (-1)).ax.state = 0
        rw [(ax_move_hwOK freq (ax_move freq hwOK st.k st.x (-st.x.state) (-1)).k
          st.z (-st.z.state) (-1)).2]
        simp
    · intro hne
      exact absurd rfl hne

/-- Witness for the C9 amended theorem on its normal-completion branch:
the small all-success scan finishes as `done` with both counters back
at 0. -/
theorem C9_witness :
    run_c9_small.st.x.state = 0 ∧ run_c9_small.st.z.state = 0 := by
  exact (C9_amended_home_only_on_loop_exit 500 (fun _ => AcqOutcome.ok) (fun _ => true)
    5 5 ⟨0, 1, 2, 1, 1, 1, -1⟩ ⟨0, 1, 3, 1, 1, 1, -1⟩).1 (by decide)

/-- Counterexample to C9 as stated.  The claim says both axes are
commanded back toward their recorded start on *every* termination path,
acquisition aborts included; with all hardware writes succeeding that
would leave both position counters at 0 (each home move commits
`state += -state`).  In the concrete run `run_c9` — all hardware writes
succeed, acquisition fails at the second grid point — the code returns
with `x.state = 50`: the x axis is abandoned 50 counts from its start and
no return move is commanded. -/
theorem C9_counterexample :
    ¬ ((run_c9.st.x.state = 0 ∧ run_c9.st.z.state = 0) ∨ run_c9.exit = OExit.done) := by
  decide

/-- Counterexample to C8 as stated.  In `run_c8` (the §8 scenario: the
direction write of the 5th of 201 x steps fails), the claim entails that
no motion command is issued to either axis after that failure; since no
nonzero z move precedes the failure, the trace would contain no z-axis
pulse command at all.  It does: the z axis is commanded a 200-pulse move
right after the failed x step, so the scan is not aborted. -/
theorem C8_counterexample :
    ¬ (∀ e ∈ run_c8.st.tr, zpulse e = false) := by
  decide

/-- **C8 (amended).** In the §8 scenario with the direction write of the
5th x step failing: the failing `ax_iter` returns -1 with the cursor
advanced to index 4 and `positionCounts` still 150, its value after the
4th successful step — that part of the claim holds — but the orchestrator
aborts only the inner x sweep: the x-loop exits (`none`), `main` calls
`ax_iter_repeat` and continues the z-loop, commanding further motion
(the 200-pulse z move appears in the trace).  Only a nonzero return from
the z-axis step ends the scan loop. -/
theorem C8_amended_x_failure_continues_scan :
    (xloop_c8.2 = none ∧ xloop_c8.1.x.state = 150 ∧ xloop_c8.1.x.idx = 4) ∧
    run_c8.exit = OExit.acqStartFail ∧
    OEv.mot AxId.zax (Ev.pulse 200) ∈ run_c8.st.tr := by
  refine ⟨by decide, by decide, by decide⟩
